import Mathlib

/-!
Verification of the carbon-footprint tracker (`src/app.py`) against its
natural-language specification.

Shallow embedding notes:
* Python floats are modelled as exact rationals (`ℚ`).  All concrete values
  appearing in the spec's scenarios are exactly representable, and the float
  execution of those scenarios rounds to the same values.
* The Python dict `EMISSION_FACTORS` is modelled as an association list,
  preserving nesting and insertion order.  Every access the program makes
  uses a literal key that is present in the table, so the embedded lookup
  `factor` uses a default of `0` for the (unreachable) missing-key case.
* The breakdown dict built by `calculate_footprint` is modelled as an
  association list in insertion order (Python dicts preserve insertion
  order).
* The Streamlit session state (`footprint_history`, `current_footprint`)
  is modelled as an explicit `SessionState` record, and the body of the
  "Calculate My Carbon Footprint" button handler as a state-passing
  function `press_calculate`.
* The tips section (lines 194-205 of `app.py`) either calls
  `get_gemini_response` with a prompt built from the total and the
  comma-joined nonzero categories, or shows an informational "no specific
  categories" message.  That branch is modelled by `render_tips`, whose
  result records which of the two actions the program takes.
-/

namespace CarbonTracker

/-- Embedding of the nested dict `EMISSION_FACTORS` of `app.py`
(lines 45-65), values in kg CO2e per unit, as exact rationals. -/
def EMISSION_FACTORS : List (String × List (String × ℚ)) :=
  [("transportation",
      [("gasoline_car_km", 21/100),
       ("electric_car_km", 5/100),
       ("public_transport_km", 4/100),
       ("flight_km", 15/100)]),
   ("electricity",
      [("kwh", 23/100)]),
   ("diet",
      [("high_meat", 5/2),
       ("medium_meat", 3/2),
       ("low_meat", 4/5),
       ("vegetarian", 1/2),
       ("vegan", 3/10)]),
   ("waste",
      [("kg_waste", 1/5)])]

/-- Embedding of the dict access `EMISSION_FACTORS[category][variant]`.
Every access performed by the program uses literal keys present in the
table, so the `0` default of this lookup is never reached by the program. -/
def factor (category variant : String) : ℚ :=
  (((EMISSION_FACTORS.lookup category).bind (fun m => m.lookup variant)).getD 0)

/-- Transportation branch of `calculate_footprint` (`app.py` lines 80-88):
`transport_co2e` starts at `0` and is assigned by the if/elif chain over
`transport_type`; an unmatched label leaves it at `0`. -/
def transport_co2e (transport_km : ℚ) (transport_type : String) : ℚ :=
  if transport_type = "Gasoline Car" then
    transport_km * factor "transportation" "gasoline_car_km"
  else if transport_type = "Electric Car" then
    transport_km * factor "transportation" "electric_car_km"
  else if transport_type = "Public Transport" then
    transport_km * factor "transportation" "public_transport_km"
  else if transport_type = "Flight" then
    transport_km * factor "transportation" "flight_km"
  else 0

/-- Electricity line of `calculate_footprint` (`app.py` line 93). -/
def electricity_co2e (electricity_kwh : ℚ) : ℚ :=
  electricity_kwh * factor "electricity" "kwh"

/-- Diet branch of `calculate_footprint` (`app.py` lines 98-108):
the daily coefficient times 30, or `0` for an unmatched label. -/
def diet_co2e (diet_choice : String) : ℚ :=
  if diet_choice = "High Meat (Daily)" then factor "diet" "high_meat" * 30
  else if diet_choice = "Medium Meat (Few times/week)" then factor "diet" "medium_meat" * 30
  else if diet_choice = "Low Meat (Once/week)" then factor "diet" "low_meat" * 30
  else if diet_choice = "Vegetarian" then factor "diet" "vegetarian" * 30
  else if diet_choice = "Vegan" then factor "diet" "vegan" * 30
  else 0

/-- Waste line of `calculate_footprint` (`app.py` line 113). -/
def waste_co2e (waste_kg : ℚ) : ℚ :=
  waste_kg * factor "waste" "kg_waste"

/-- Embedding of `calculate_footprint` (`app.py` lines 74-117): returns
`(total_co2e, breakdown)`.  `total_co2e` starts at `0` and accumulates the
four contributions in source order; the breakdown dict receives the four
keys in insertion order Transportation, Electricity, Diet, Waste. -/
def calculate_footprint (transport_km : ℚ) (transport_type : String)
    (electricity_kwh : ℚ) (diet_choice : String) (waste_kg : ℚ) :
    ℚ × List (String × ℚ) :=
  let t := transport_co2e transport_km transport_type
  let e := electricity_co2e electricity_kwh
  let d := diet_co2e diet_choice
  let w := waste_co2e waste_kg
  (0 + t + e + d + w,
   [("Transportation", t), ("Electricity", e), ("Diet", d), ("Waste", w)])

/-- A stored history entry: the dict built at `app.py` lines 155-159
(`date`, `total`, `breakdown`). -/
structure FootprintRecord where
  date : String
  total : ℚ
  breakdown : List (String × ℚ)
deriving DecidableEq

/-- The Streamlit session state used by the program
(`st.session_state.footprint_history`, `st.session_state.current_footprint`,
initialized at `app.py` lines 68-71). -/
structure SessionState where
  footprint_history : List FootprintRecord
  current_footprint : Option FootprintRecord
deriving DecidableEq

/-- Python's `list.append`, as used on `st.session_state.footprint_history`
at `app.py` line 160: adds the record at the end of the list. -/
def history_append (h : List FootprintRecord) (r : FootprintRecord) :
    List FootprintRecord :=
  h ++ [r]

/-- Embedding of the "Calculate My Carbon Footprint" button handler
(`app.py` lines 150-161): computes the footprint, stores it as
`current_footprint`, and appends it to `footprint_history`. -/
def press_calculate (s : SessionState) (today : String) (transport_km : ℚ)
    (transport_type : String) (electricity_kwh : ℚ) (diet_choice : String)
    (waste_kg : ℚ) : SessionState :=
  let r := calculate_footprint transport_km transport_type electricity_kwh
    diet_choice waste_kg
  let record : FootprintRecord := ⟨today, r.1, r.2⟩
  { footprint_history := history_append s.footprint_history record,
    current_footprint := some record }

/-- Outcome of the tips section: either the external text-generation
collaborator is invoked (carrying the total and the comma-joined nonzero
category list that the prompt embeds), or the in-band informational
"no specific categories identified" message is shown instead. -/
inductive TipsAction where
  | invoke (total : ℚ) (top : String)
  | noSuggestions
deriving DecidableEq

/-- Embedding of `sorted(current_breakdown.items(), key=..., reverse=True)`
(`app.py` line 195): stable sort, descending by contribution. -/
def sorted_breakdown (breakdown : List (String × ℚ)) : List (String × ℚ) :=
  breakdown.mergeSort (fun a b => decide (b.2 ≤ a.2))

/-- Embedding of `", ".join([cat for cat, co2 in sorted_breakdown if co2 > 0])`
(`app.py` line 196). -/
def top_categories (breakdown : List (String × ℚ)) : String :=
  String.intercalate ", "
    (((sorted_breakdown breakdown).filter (fun p => decide (0 < p.2))).map Prod.fst)

/-- Embedding of the branch at `app.py` lines 198-205: a nonempty
`top_categories` string (Python truthiness) triggers the Gemini call,
otherwise the informational message is shown and no call is made. -/
def render_tips (total : ℚ) (breakdown : List (String × ℚ)) : TipsAction :=
  let tc := top_categories breakdown
  if tc ≠ "" then TipsAction.invoke total tc else TipsAction.noSuggestions

/- ------------------------------------------------------------------ -/
/- Helper lemmas shared by several claims                              -/
/- ------------------------------------------------------------------ -/

lemma factor_gasoline_car : factor "transportation" "gasoline_car_km" = 21/100 := by rfl

lemma factor_electric_car : factor "transportation" "electric_car_km" = 5/100 := by rfl

lemma factor_public_transport : factor "transportation" "public_transport_km" = 4/100 := by rfl

lemma factor_flight : factor "transportation" "flight_km" = 15/100 := by rfl

lemma factor_kwh : factor "electricity" "kwh" = 23/100 := by rfl

lemma factor_high_meat : factor "diet" "high_meat" = 5/2 := by rfl

lemma factor_medium_meat : factor "diet" "medium_meat" = 3/2 := by rfl

lemma factor_low_meat : factor "diet" "low_meat" = 4/5 := by rfl

lemma factor_vegetarian : factor "diet" "vegetarian" = 1/2 := by rfl

lemma factor_vegan : factor "diet" "vegan" = 3/10 := by rfl

lemma factor_kg_waste : factor "waste" "kg_waste" = 1/5 := by rfl

lemma transport_co2e_zero (tt : String) : transport_co2e 0 tt = 0 := by
  unfold transport_co2e
  split_ifs <;> simp

lemma transport_co2e_mono (tt : String) (km km' : ℚ) (h : km ≤ km') :
    transport_co2e km tt ≤ transport_co2e km' tt := by
  unfold transport_co2e
  split_ifs
  · exact mul_le_mul_of_nonneg_right h (by rw [factor_gasoline_car]; norm_num)
  · exact mul_le_mul_of_nonneg_right h (by rw [factor_electric_car]; norm_num)
  · exact mul_le_mul_of_nonneg_right h
      (by rw [factor_public_transport]; norm_num)
  · exact mul_le_mul_of_nonneg_right h (by rw [factor_flight]; norm_num)
  · exact le_refl 0

lemma lookup_breakdown_ne_t (c : String) (hc : c ≠ "Transportation")
    (t t' e d w : ℚ) :
    List.lookup c
        [("Transportation", t'), ("Electricity", e), ("Diet", d),
         ("Waste", w)] =
      List.lookup c
        [("Transportation", t), ("Electricity", e), ("Diet", d),
         ("Waste", w)] := by
  have h : (c == "Transportation") = false := beq_eq_false_iff_ne.mpr hc
  simp [List.lookup, h]

lemma lookup_breakdown_ne_e (c : String) (hc : c ≠ "Electricity")
    (t e e' d w : ℚ) :
    List.lookup c
        [("Transportation", t), ("Electricity", e'), ("Diet", d),
         ("Waste", w)] =
      List.lookup c
        [("Transportation", t), ("Electricity", e), ("Diet", d),
         ("Waste", w)] := by
  have h : (c == "Electricity") = false := beq_eq_false_iff_ne.mpr hc
  simp [List.lookup, h]

lemma lookup_breakdown_ne_w (c : String) (hc : c ≠ "Waste")
    (t e d w w' : ℚ) :
    List.lookup c
        [("Transportation", t), ("Electricity", e), ("Diet", d),
         ("Waste", w')] =
      List.lookup c
        [("Transportation", t), ("Electricity", e), ("Diet", d),
         ("Waste", w)] := by
  have h : (c == "Waste") = false := beq_eq_false_iff_ne.mpr hc
  simp [List.lookup, h]

lemma calc_zero (tt dc : String) :
    calculate_footprint 0 tt 0 dc 0 =
      (diet_co2e dc,
       [("Transportation", 0), ("Electricity", 0), ("Diet", diet_co2e dc),
        ("Waste", 0)]) := by
  unfold calculate_footprint electricity_co2e waste_co2e
  rw [transport_co2e_zero]
  norm_num

/- ------------------------------------------------------------------ -/
/- Claims                                                              -/
/- ------------------------------------------------------------------ -/

/-- C1: for distance=500 km with a gasoline car, electricity=300 kWh,
vegetarian diet and waste=15 kg, `calculate_footprint` returns
Transportation=105, Electricity=69, Diet=15, Waste=3 and total=192 kg CO2e. -/
theorem c1_end_to_end_scenario :
    calculate_footprint 500 "Gasoline Car" 300 "Vegetarian" 15 =
      (192, [("Transportation", 105), ("Electricity", 69), ("Diet", 15),
             ("Waste", 3)]) := by
  simp +decide [calculate_footprint, transport_co2e, electricity_co2e,
    diet_co2e, waste_co2e, factor_gasoline_car, factor_kwh, factor_vegetarian,
    factor_kg_waste]
  norm_num

/-- C2: for every input with non-negative numeric fields, the total returned
by `calculate_footprint` equals the sum of the values of the returned
breakdown (exactly, in the rational model). -/
theorem c2_total_eq_breakdown_sum (km kwh w : ℚ) (tt dc : String)
    (hkm : 0 ≤ km) (hkwh : 0 ≤ kwh) (hw : 0 ≤ w) :
    (calculate_footprint km tt kwh dc w).1 =
      ((calculate_footprint km tt kwh dc w).2.map Prod.snd).sum := by
  simp only [calculate_footprint, List.map_cons, List.map_nil, List.sum_cons,
    List.sum_nil]
  ring

/-- Witness for C2 at the spec's end-to-end scenario input. -/
theorem c2_total_eq_breakdown_sum_witness :
    (calculate_footprint 500 "Gasoline Car" 300 "Vegetarian" 15).1 =
      ((calculate_footprint 500 "Gasoline Car" 300 "Vegetarian" 15).2.map
        Prod.snd).sum :=
  c2_total_eq_breakdown_sum 500 300 15 "Gasoline Car" "Vegetarian"
    (by norm_num) (by norm_num) (by norm_num)

/-- C3 counterexample: with distance = -100 km the Calculator does not fail:
`calculate_footprint` returns normally, with the negative value multiplied
through unclamped (Transportation = -21, total = -12). -/
theorem c3_counterexample :
    (calculate_footprint (-100) "Gasoline Car" 0 "Vegan" 0).2.lookup
        "Transportation" = some (-21) ∧
    (calculate_footprint (-100) "Gasoline Car" 0 "Vegan" 0).1 = -12 := by
  constructor
  · simp +decide [calculate_footprint, transport_co2e, factor_gasoline_car,
      List.lookup]
    norm_num
  · simp +decide [calculate_footprint, transport_co2e, electricity_co2e,
      diet_co2e, waste_co2e, factor_gasoline_car, factor_kwh, factor_vegan,
      factor_kg_waste]
    norm_num

/-- C3 amended: `calculate_footprint` performs no validation of numeric
inputs; a negative distance is multiplied by its coefficient as-is — the
Transportation contribution equals distance × coefficient and is negative —
rather than raising any error or clamping to zero.  (Non-negativity is
enforced only by the UI widgets' `min_value` constraints.) -/
theorem c3_negative_input_unvalidated (km kwh w : ℚ) (dc : String)
    (hkm : km < 0) :
    (calculate_footprint km "Gasoline Car" kwh dc w).2.lookup
        "Transportation" = some (km * (21/100)) ∧
    km * (21/100) < 0 := by
  constructor
  · simp +decide [calculate_footprint, transport_co2e, factor_gasoline_car,
      List.lookup]
  · exact mul_neg_of_neg_of_pos hkm (by norm_num)

/-- Witness for the amended C3 at distance = -1. -/
theorem c3_negative_input_unvalidated_witness :
    (calculate_footprint (-1) "Gasoline Car" 0 "Vegan" 0).2.lookup
        "Transportation" = some ((-1) * (21/100)) ∧
    ((-1) : ℚ) * (21/100) < 0 :=
  c3_negative_input_unvalidated (-1) 0 0 "Vegan" (by norm_num)

/-- C4 counterexample: with the unknown transport variant "Bicycle" the
calculation does not fail — it returns with Transportation = 0 — and the
button handler still appends a record to the (initially empty) history. -/
theorem c4_counterexample :
    (calculate_footprint 100 "Bicycle" 0 "Vegan" 0).2.lookup
        "Transportation" = some 0 ∧
    (press_calculate ⟨[], none⟩ "2026-10-12" 100 "Bicycle" 0 "Vegan"
        0).footprint_history.length = 1 := by
  constructor
  · simp +decide [calculate_footprint, transport_co2e, List.lookup]
  · simp [press_calculate, history_append]

/-- C4 amended: an unrecognized transport or diet variant label does not
raise any error: that category's contribution is silently 0 (the if/elif
chain falls through), the calculation succeeds, and the button handler
still appends the record to history (the history length grows by exactly
one, for every input). -/
theorem c4_unknown_variant_silently_zero (s : SessionState)
    (today : String) (km kwh w : ℚ) (tt dc : String) :
    (tt ≠ "Gasoline Car" → tt ≠ "Electric Car" → tt ≠ "Public Transport" →
      tt ≠ "Flight" →
      (calculate_footprint km tt kwh dc w).2.lookup "Transportation" =
        some 0) ∧
    (dc ≠ "High Meat (Daily)" → dc ≠ "Medium Meat (Few times/week)" →
      dc ≠ "Low Meat (Once/week)" → dc ≠ "Vegetarian" → dc ≠ "Vegan" →
      (calculate_footprint km tt kwh dc w).2.lookup "Diet" = some 0) ∧
    (press_calculate s today km tt kwh dc w).footprint_history.length =
      s.footprint_history.length + 1 := by
  refine ⟨?_, ?_, ?_⟩
  · intro h1 h2 h3 h4
    have ht : transport_co2e km tt = 0 := by
      unfold transport_co2e
      rw [if_neg h1, if_neg h2, if_neg h3, if_neg h4]
    simp +decide [calculate_footprint, List.lookup, ht]
  · intro h1 h2 h3 h4 h5
    have hd : diet_co2e dc = 0 := by
      unfold diet_co2e
      rw [if_neg h1, if_neg h2, if_neg h3, if_neg h4, if_neg h5]
    simp +decide [calculate_footprint, List.lookup, hd]
  · simp [press_calculate, history_append]

/-- Witness for the amended C4 with the unrecognized transport variant
"Bicycle" and the unrecognized diet label "Pescatarian", on a one-record
history. -/
theorem c4_unknown_variant_silently_zero_witness :
    (calculate_footprint 7 "Bicycle" 2 "Pescatarian" 3).2.lookup
        "Transportation" = some 0 ∧
    (calculate_footprint 7 "Bicycle" 2 "Pescatarian" 3).2.lookup "Diet" =
        some 0 ∧
    (press_calculate ⟨[⟨"2026-10-11", 9, []⟩], none⟩ "2026-10-12" 7
        "Bicycle" 2 "Pescatarian" 3).footprint_history.length =
      ([⟨"2026-10-11", 9, []⟩] : List FootprintRecord).length + 1 := by
  have h := c4_unknown_variant_silently_zero ⟨[⟨"2026-10-11", 9, []⟩], none⟩
    "2026-10-12" 7 2 3 "Bicycle" "Pescatarian"
  exact ⟨h.1 (by decide) (by decide) (by decide) (by decide),
    h.2.1 (by decide) (by decide) (by decide) (by decide) (by decide),
    h.2.2⟩

/-- C5 counterexample: with every numeric field zero and the Vegan diet,
the total is 9 (= 0.3 × 30), not 0. -/
theorem c5_counterexample :
    (calculate_footprint 0 "Gasoline Car" 0 "Vegan" 0).1 = 9 ∧
    (calculate_footprint 0 "Gasoline Car" 0 "Vegan" 0).1 ≠ 0 := by
  have h : (calculate_footprint 0 "Gasoline Car" 0 "Vegan" 0).1 =
      diet_co2e "Vegan" := by rw [calc_zero]
  have h9 : diet_co2e "Vegan" = 9 := by
    simp +decide [diet_co2e, factor_vegan]
    norm_num
  rw [h, h9]
  norm_num

/-- C5 amended: when the numeric fields (distance, kWh, waste) are all
zero, the Transportation, Electricity and Waste contributions are 0 and the
total equals the Diet contribution — which is nonzero for every recognized
diet variant, so the total is 0 only when the diet label is unrecognized. -/
theorem c5_zero_numeric_inputs (tt dc : String) :
    calculate_footprint 0 tt 0 dc 0 =
      (diet_co2e dc,
       [("Transportation", 0), ("Electricity", 0), ("Diet", diet_co2e dc),
        ("Waste", 0)]) :=
  calc_zero tt dc

/-- C6: increasing a single numeric input (distance, kWh, or waste kg)
never decreases that input's own category contribution in the breakdown of
`calculate_footprint`, and leaves every other category's contribution
unchanged. -/
theorem c6_single_input_monotone (tt dc : String) (km km' kwh kwh' w w' : ℚ)
    (hkm : km ≤ km') (hkwh : kwh ≤ kwh') (hw : w ≤ w') :
    ((calculate_footprint km tt kwh dc w).2.lookup "Transportation" =
        some (transport_co2e km tt) ∧
      (calculate_footprint km' tt kwh dc w).2.lookup "Transportation" =
        some (transport_co2e km' tt) ∧
      transport_co2e km tt ≤ transport_co2e km' tt ∧
      ∀ c, c ≠ "Transportation" →
        (calculate_footprint km' tt kwh dc w).2.lookup c =
          (calculate_footprint km tt kwh dc w).2.lookup c) ∧
    ((calculate_footprint km tt kwh dc w).2.lookup "Electricity" =
        some (electricity_co2e kwh) ∧
      (calculate_footprint km tt kwh' dc w).2.lookup "Electricity" =
        some (electricity_co2e kwh') ∧
      electricity_co2e kwh ≤ electricity_co2e kwh' ∧
      ∀ c, c ≠ "Electricity" →
        (calculate_footprint km tt kwh' dc w).2.lookup c =
          (calculate_footprint km tt kwh dc w).2.lookup c) ∧
    ((calculate_footprint km tt kwh dc w).2.lookup "Waste" =
        some (waste_co2e w) ∧
      (calculate_footprint km tt kwh dc w').2.lookup "Waste" =
        some (waste_co2e w') ∧
      waste_co2e w ≤ waste_co2e w' ∧
      ∀ c, c ≠ "Waste" →
        (calculate_footprint km tt kwh dc w').2.lookup c =
          (calculate_footprint km tt kwh dc w).2.lookup c) := by
  refine ⟨⟨?_, ?_, transport_co2e_mono tt km km' hkm, ?_⟩,
    ⟨?_, ?_, ?_, ?_⟩, ⟨?_, ?_, ?_, ?_⟩⟩
  · simp +decide [calculate_footprint, List.lookup]
  · simp +decide [calculate_footprint, List.lookup]
  · intro c hc
    exact lookup_breakdown_ne_t c hc _ _ _ _ _
  · simp +decide [calculate_footprint, List.lookup]
  · simp +decide [calculate_footprint, List.lookup]
  · exact mul_le_mul_of_nonneg_right hkwh (by rw [factor_kwh]; norm_num)
  · intro c hc
    exact lookup_breakdown_ne_e c hc _ _ _ _ _
  · simp +decide [calculate_footprint, List.lookup]
  · simp +decide [calculate_footprint, List.lookup]
  · exact mul_le_mul_of_nonneg_right hw (by rw [factor_kg_waste]; norm_num)
  · intro c hc
    exact lookup_breakdown_ne_w c hc _ _ _ _ _

/-- Witness for C6 at concrete inputs 1 ≤ 2 (km), 3 ≤ 4 (kWh), 5 ≤ 6 (kg). -/
theorem c6_single_input_monotone_witness :
    ((calculate_footprint 1 "Gasoline Car" 3 "Vegan" 5).2.lookup
        "Transportation" = some (transport_co2e 1 "Gasoline Car") ∧
      (calculate_footprint 2 "Gasoline Car" 3 "Vegan" 5).2.lookup
        "Transportation" = some (transport_co2e 2 "Gasoline Car") ∧
      transport_co2e 1 "Gasoline Car" ≤ transport_co2e 2 "Gasoline Car" ∧
      ∀ c, c ≠ "Transportation" →
        (calculate_footprint 2 "Gasoline Car" 3 "Vegan" 5).2.lookup c =
          (calculate_footprint 1 "Gasoline Car" 3 "Vegan" 5).2.lookup c) ∧
    ((calculate_footprint 1 "Gasoline Car" 3 "Vegan" 5).2.lookup
        "Electricity" = some (electricity_co2e 3) ∧
      (calculate_footprint 1 "Gasoline Car" 4 "Vegan" 5).2.lookup
        "Electricity" = some (electricity_co2e 4) ∧
      electricity_co2e 3 ≤ electricity_co2e 4 ∧
      ∀ c, c ≠ "Electricity" →
        (calculate_footprint 1 "Gasoline Car" 4 "Vegan" 5).2.lookup c =
          (calculate_footprint 1 "Gasoline Car" 3 "Vegan" 5).2.lookup c) ∧
    ((calculate_footprint 1 "Gasoline Car" 3 "Vegan" 5).2.lookup "Waste" =
        some (waste_co2e 5) ∧
      (calculate_footprint 1 "Gasoline Car" 3 "Vegan" 6).2.lookup "Waste" =
        some (waste_co2e 6) ∧
      waste_co2e 5 ≤ waste_co2e 6 ∧
      ∀ c, c ≠ "Waste" →
        (calculate_footprint 1 "Gasoline Car" 3 "Vegan" 6).2.lookup c =
          (calculate_footprint 1 "Gasoline Car" 3 "Vegan" 5).2.lookup c) :=
  c6_single_input_monotone "Gasoline Car" "Vegan" 1 2 3 4 5 6 (by norm_num)
    (by norm_num) (by norm_num)

/-- C7: appending a record to any history and reading the sequence back
yields the appended record as the last element, and a length exactly one
greater than before. -/
theorem c7_append_then_all (h : List FootprintRecord) (r : FootprintRecord) :
    (history_append h r).getLast? = some r ∧
    (history_append h r).length = h.length + 1 := by
  constructor
  · simp [history_append]
  · simp [history_append]

/-- C8: the breakdown returned by `calculate_footprint` always has exactly
the four category keys, in the fixed order Transportation, Electricity,
Diet, Waste, for every input. -/
theorem c8_breakdown_keys (km kwh w : ℚ) (tt dc : String) :
    ((calculate_footprint km tt kwh dc w).2).map Prod.fst =
      ["Transportation", "Electricity", "Diet", "Waste"] := by
  simp [calculate_footprint]

/-- C9: when no category has a positive contribution, the tips section
takes the informational branch — the external text-generation collaborator
is not invoked and the in-band "no suggestions" indicator is returned. -/
theorem c9_no_invoke_when_no_nonzero (total : ℚ)
    (breakdown : List (String × ℚ)) (h : ∀ p ∈ breakdown, p.2 ≤ 0) :
    render_tips total breakdown = TipsAction.noSuggestions := by
  have hfilter :
      (sorted_breakdown breakdown).filter (fun p => decide (0 < p.2)) =
        [] := by
    rw [List.filter_eq_nil_iff]
    intro p hp
    have hmem : p ∈ breakdown := by
      unfold sorted_breakdown at hp
      exact (List.mem_mergeSort).1 hp
    simpa using not_lt.mpr (h p hmem)
  have htc : top_categories breakdown = "" := by
    unfold top_categories
    rw [hfilter]
    rfl
  unfold render_tips
  rw [htc]
  simp

/-- Witness for C9 with the all-zero breakdown. -/
theorem c9_no_invoke_when_no_nonzero_witness :
    render_tips 0
        [("Transportation", 0), ("Electricity", 0), ("Diet", 0),
         ("Waste", 0)] = TipsAction.noSuggestions :=
  c9_no_invoke_when_no_nonzero 0
    [("Transportation", 0), ("Electricity", 0), ("Diet", 0), ("Waste", 0)]
    (by intro p hp; fin_cases hp <;> norm_num)

/-- C10: for each of the five recognized diet labels the Diet contribution
is the daily coefficient scaled by 30, hence at least 9 kg CO2e (the vegan
minimum), and the total is strictly positive even with every numeric input
zero. -/
theorem c10_diet_floor (tt dc : String)
    (hdc : dc ∈ ["High Meat (Daily)", "Medium Meat (Few times/week)",
      "Low Meat (Once/week)", "Vegetarian", "Vegan"]) :
    (calculate_footprint 0 tt 0 dc 0).2.lookup "Diet" =
        some (diet_co2e dc) ∧
    9 ≤ diet_co2e dc ∧
    0 < (calculate_footprint 0 tt 0 dc 0).1 := by
  have h9 : 9 ≤ diet_co2e dc := by
    fin_cases hdc <;>
      simp +decide [diet_co2e, factor_high_meat, factor_medium_meat,
        factor_low_meat, factor_vegetarian, factor_vegan] <;>
      norm_num
  refine ⟨?_, h9, ?_⟩
  · rw [calc_zero]
    simp +decide [List.lookup]
  · rw [calc_zero]
    exact lt_of_lt_of_le (by norm_num) h9

/-- Witness for C10 with the Vegan diet. -/
theorem c10_diet_floor_witness :
    (calculate_footprint 0 "Gasoline Car" 0 "Vegan" 0).2.lookup "Diet" =
        some (diet_co2e "Vegan") ∧
    9 ≤ diet_co2e "Vegan" ∧
    0 < (calculate_footprint 0 "Gasoline Car" 0 "Vegan" 0).1 :=
  c10_diet_floor "Gasoline Car" "Vegan" (by decide)

end CarbonTracker
